import Mathlib

/-!
Verification of the strictness-level core of the sorbet repository.

The subject is `src/core/StrictLevel.h`: a C++ `enum class StrictLevel`
with explicit integer discriminants. The enum and its discriminants are
embedded below as `Sorbet.StrictLevel` and `Sorbet.rankOf`. The header
declares only the enum; the comparison operations (`compare`, `atLeast`,
`isInternal`) used by the rest of the system are specified in the design
document and are modelled from its words.
-/

namespace Sorbet

/-- The closed set of strictness levels, embedding the nine enumerators of
`sorbet::core::StrictLevel` from `src/core/StrictLevel.h`. -/
inductive StrictLevel where
  | Internal
  | None
  | Ignore
  | Stripe
  | Typed
  | Strict
  | Strong
  | Max
  | Autogenerated
deriving DecidableEq, Fintype, Repr

/-- The integer rank of a level: exactly the explicit discriminant assigned
to each enumerator in `src/core/StrictLevel.h` (`Internal = 0`, `None = 1`,
`Ignore = 2`, `Stripe = 3`, `Typed = 4`, `Strict = 5`, `Strong = 6`,
`Max = 7`, `Autogenerated = 10`). -/
def rankOf : StrictLevel → Nat
  | .Internal => 0
  | .None => 1
  | .Ignore => 2
  | .Stripe => 3
  | .Typed => 4
  | .Strict => 5
  | .Strong => 6
  | .Max => 7
  | .Autogenerated => 10

/-- Result type of the three-way comparison, with the outcome names used by
the design document. -/
inductive CompareResult where
  | less
  | equal
  | greater
deriving DecidableEq, Repr

/-- Modelled from the spec: `compare(a, b) -> {less, equal, greater}` is the
total order by numeric rank (§4.1). The repository header under `src/`
declares only the enum with its discriminants; the comparison operation
itself is absent from `src/` and is taken from the spec's words: purely
numeric comparison of ranks, with no special-cased override. -/
def compare (a b : StrictLevel) : CompareResult :=
  if rankOf a < rankOf b then .less
  else if rankOf a = rankOf b then .equal
  else .greater

/-- Modelled from the spec: `atLeast(level, threshold) -> bool` is
`rankOf(level) >= rankOf(threshold)` (§4.1). Absent from `src/`; taken from
the spec's words. -/
def atLeast (level threshold : StrictLevel) : Bool :=
  rankOf threshold ≤ rankOf level

/-- Modelled from the spec: `isInternal(level) -> bool` is true only for
`Internal` (§4.1), defined independently of `atLeast`. Absent from `src/`;
taken from the spec's words. -/
def isInternal (level : StrictLevel) : Bool :=
  level = .Internal

/-- C1: the mapping from level name to rank is exactly Internal=0, None=1,
Ignore=2, Stripe=3, Typed=4, Strict=5, Strong=6, Max=7, Autogenerated=10;
`rankOf` is total on the nine defined levels (it is a total Lean function),
and the mapping is bijective onto its image: no two levels share a rank. -/
theorem rankOf_exact_and_bijective :
    rankOf .Internal = 0 ∧ rankOf .None = 1 ∧ rankOf .Ignore = 2 ∧
    rankOf .Stripe = 3 ∧ rankOf .Typed = 4 ∧ rankOf .Strict = 5 ∧
    rankOf .Strong = 6 ∧ rankOf .Max = 7 ∧ rankOf .Autogenerated = 10 ∧
    ∀ a b : StrictLevel, rankOf a = rankOf b ↔ a = b := by
  decide

/-- C2: `rankOf Autogenerated = 10` is strictly greater than
`rankOf Max = 7`, so `atLeast Autogenerated Max = true` and
`compare Autogenerated Max = greater`, purely by numeric rank comparison
(the comparison of every pair agrees with the numeric comparison of ranks,
so there is no special-cased override for the Autogenerated outlier). -/
theorem autogenerated_above_max :
    rankOf .Autogenerated = 10 ∧ rankOf .Max = 7 ∧
    rankOf .Max < rankOf .Autogenerated ∧
    atLeast .Autogenerated .Max = true ∧
    compare .Autogenerated .Max = .greater ∧
    ∀ a b : StrictLevel, atLeast a b = decide (rankOf b ≤ rankOf a) := by
  decide

/-- C3: `compare` is a total order on the nine defined levels: for every
pair exactly one of `less`, `equal`, `greater` holds; it is reflexive
(`compare a a = equal`), antisymmetric (`equal` only on identical levels),
and transitive, including pairs involving Autogenerated. -/
theorem compare_total_order :
    (∀ a : StrictLevel, compare a a = .equal) ∧
    (∀ a b : StrictLevel,
      (compare a b = .less ∧ compare a b ≠ .equal ∧ compare a b ≠ .greater) ∨
      (compare a b ≠ .less ∧ compare a b = .equal ∧ compare a b ≠ .greater) ∨
      (compare a b ≠ .less ∧ compare a b ≠ .equal ∧ compare a b = .greater)) ∧
    (∀ a b : StrictLevel, compare a b = .equal → a = b) ∧
    (∀ a b c : StrictLevel,
      compare a b = .less → compare b c = .less → compare a c = .less) := by
  decide

/-- C3 witness: the antisymmetry and transitivity parts of
`compare_total_order` applied at concrete levels. -/
theorem compare_total_order_witness :
    StrictLevel.Typed = StrictLevel.Typed ∧
    compare .Internal .Max = .less :=
  ⟨compare_total_order.2.2.1 .Typed .Typed (by decide),
   compare_total_order.2.2.2 .Internal .Typed .Max (by decide) (by decide)⟩

/-- C4: Internal has the strictly lowest rank among all defined levels: for
every level `L` other than `Internal`, `compare Internal L = less`. -/
theorem internal_is_minimal :
    ∀ L : StrictLevel, L ≠ .Internal → compare .Internal L = .less := by
  decide

/-- C4 witness: `internal_is_minimal` applied at `Max`. -/
theorem internal_is_minimal_witness :
    compare .Internal .Max = .less :=
  internal_is_minimal .Max (by decide)

/-- C5: every level in the standard band below Max, namely None, Ignore,
Stripe, Typed, Strict and Strong, compares strictly less than Max. -/
theorem max_above_standard_band :
    compare .None .Max = .less ∧ compare .Ignore .Max = .less ∧
    compare .Stripe .Max = .less ∧ compare .Typed .Max = .less ∧
    compare .Strict .Max = .less ∧ compare .Strong .Max = .less := by
  decide

/-- C6: `atLeast level threshold` is true exactly when
`rankOf level ≥ rankOf threshold`; in particular
`atLeast Strict Typed = true`, `atLeast Typed Strict = false`,
`compare None Ignore = less`, and `rankOf Strong = 6`. -/
theorem atLeast_iff_rank_ge :
    (∀ a b : StrictLevel, atLeast a b = true ↔ rankOf b ≤ rankOf a) ∧
    atLeast .Strict .Typed = true ∧
    atLeast .Typed .Strict = false ∧
    compare .None .Ignore = .less ∧
    rankOf .Strong = 6 := by
  decide

/-- C7: `isInternal` is true at `Internal` and false at every one of the
other eight defined levels. -/
theorem isInternal_only_internal :
    isInternal .Internal = true ∧
    isInternal .None = false ∧ isInternal .Ignore = false ∧
    isInternal .Stripe = false ∧ isInternal .Typed = false ∧
    isInternal .Strict = false ∧ isInternal .Strong = false ∧
    isInternal .Max = false ∧ isInternal .Autogenerated = false := by
  decide

/-- C8: `atLeast` is reflexive: `atLeast L L = true` for every level. -/
theorem atLeast_reflexive :
    ∀ L : StrictLevel, atLeast L L = true := by
  decide

/-- C9: `rankOf`, `compare`, `atLeast` and `isInternal` are deterministic
functions of their arguments alone: invoked on equal arguments they return
equal results, and, being pure Lean functions over an immutable value type,
they mutate no level value and no other state. -/
theorem operations_deterministic :
    ∀ a b a2 b2 : StrictLevel, a = a2 → b = b2 →
      rankOf a = rankOf a2 ∧ compare a b = compare a2 b2 ∧
      atLeast a b = atLeast a2 b2 ∧ isInternal a = isInternal a2 := by
  intro a b a2 b2 ha hb
  subst ha; subst hb
  exact ⟨rfl, rfl, rfl, rfl⟩

/-- C9 witness: `operations_deterministic` applied at `Strict` and `Typed`. -/
theorem operations_deterministic_witness :
    rankOf .Strict = rankOf .Strict ∧
    compare .Strict .Typed = compare .Strict .Typed ∧
    atLeast .Strict .Typed = atLeast .Strict .Typed ∧
    isInternal .Strict = isInternal .Strict :=
  operations_deterministic .Strict .Typed .Strict .Typed rfl rfl

/-- C10: rank equality implies identity (`compare a b = equal → a = b`),
the integers 8 and 9 are the rank of no defined level, and the set of
assigned ranks is exactly \x7b0, 1, 2, 3, 4, 5, 6, 7, 10\x7d. -/
theorem rank_equality_identity_and_gap :
    (∀ a b : StrictLevel, compare a b = .equal → a = b) ∧
    (∀ L : StrictLevel, rankOf L ≠ 8 ∧ rankOf L ≠ 9) ∧
    (∀ L : StrictLevel,
      rankOf L ∈ ({0, 1, 2, 3, 4, 5, 6, 7, 10} : Finset Nat)) ∧
    (∀ n ∈ ({0, 1, 2, 3, 4, 5, 6, 7, 10} : Finset Nat),
      ∃ L : StrictLevel, rankOf L = n) := by
  decide

/-- C10 witness: the antisymmetry part of `rank_equality_identity_and_gap`
applied at `Strong`, and the surjectivity part applied at rank 10. -/
theorem rank_equality_identity_and_gap_witness :
    StrictLevel.Strong = StrictLevel.Strong ∧
    ∃ L : StrictLevel, rankOf L = 10 :=
  ⟨rank_equality_identity_and_gap.1 .Strong .Strong (by decide),
   rank_equality_identity_and_gap.2.2.2 10 (by decide)⟩

end Sorbet
